import Mathlib

/-!
Verification of the core logic of the NECO accreditation back end
(`app/core/scheduler.py`, `app/core/auth.py`, `app/api/v1/endpoints/data.py`)
against its design specification.

The embedding is shallow: each Python function of the core is translated into
an executable Lean function over explicit record types mirroring the SQLAlchemy
models (`app/infrastructure/database/models.py`); the database session is
modelled as a list of rows, and side effects (alert e-mails, credential
e-mails, error logs) are returned as explicit event lists.
-/

namespace Neco

/-! ## Calendar dates

`scheduler.py` works with `datetime.date` values and
`dateutil.relativedelta(years=5)`.  Dates are proleptic Gregorian calendar
dates; Python compares them lexicographically by (year, month, day) and
subtracts them via their day ordinal. -/

structure Date where
  year : Nat
  month : Nat
  day : Nat
deriving DecidableEq

/-- Gregorian leap-year rule, as used by `datetime` / `dateutil`. -/
def isLeap (y : Nat) : Bool :=
  (y % 4 == 0 && y % 100 != 0) || y % 400 == 0

/-- Number of days in month `m` of year `y`. -/
def daysInMonth (y m : Nat) : Nat :=
  if m = 2 then (if isLeap y then 29 else 28)
  else if m = 4 ∨ m = 6 ∨ m = 9 ∨ m = 11 then 30
  else 31

/-- `d` is a valid calendar date. -/
def validDate (d : Date) : Bool :=
  1 ≤ d.year && 1 ≤ d.month && d.month ≤ 12 && 1 ≤ d.day && d.day ≤ daysInMonth d.year d.month

/-- `acc_date + relativedelta(years=5)` from `scheduler.py` line 26:
`relativedelta` replaces the year by `year + 5` and clamps the day to the last
day of the (possibly shorter) target month (Feb 29 + 5 years ↦ Feb 28). -/
def addYears5 (d : Date) : Date :=
  ⟨d.year + 5, d.month, min d.day (daysInMonth (d.year + 5) d.month)⟩

/-- Python `date` comparison `a <= b`: lexicographic on (year, month, day). -/
def dateLe (a b : Date) : Bool :=
  decide (a.year < b.year ∨ (a.year = b.year ∧
    (a.month < b.month ∨ (a.month = b.month ∧ a.day ≤ b.day))))

/-- Day number of a Gregorian date (affine shift of Python's
`date.toordinal`), so that `(a - b).days = toDays a - toDays b`.  Standard
formula: January and February are counted as months 13 and 14 of the previous
year. -/
def toDays (dt : Date) : Int :=
  let y : Int := if dt.month ≤ 2 then (dt.year : Int) - 1 else (dt.year : Int)
  let m : Int := if dt.month ≤ 2 then (dt.month : Int) + 12 else (dt.month : Int)
  365 * y + y / 4 - y / 100 + y / 400 + (153 * (m + 1)) / 5 + (dt.day : Int)

/-! ## AlertPolicy: classify

`scheduler.py` lines 26-71, the per-school outcome logic of
`check_accreditation`: expiry is `accredited_date + 5 years`; at or past
expiry the school is expired; otherwise an alert fires exactly when the number
of days left to expiry is one of 365, 182, 91, 61, 30. -/

inductive Outcome where
  | Expired : Outcome
  | Threshold : String → Outcome
  | NoAction : Outcome
deriving DecidableEq

/-- The pure classification at the heart of `check_accreditation`
(`scheduler.py` lines 26-71): `classify today accOn`. -/
def classify (today accOn : Date) : Outcome :=
  let expiry := addYears5 accOn
  if dateLe expiry today then Outcome.Expired
  else
    let daysLeft : Int := toDays expiry - toDays today
    if daysLeft = 365 then Outcome.Threshold "1 Year"
    else if daysLeft = 182 then Outcome.Threshold "6 Months"
    else if daysLeft = 91 then Outcome.Threshold "3 Months"
    else if daysLeft = 61 then Outcome.Threshold "2 Months"
    else if daysLeft = 30 then Outcome.Threshold "1 Month"
    else Outcome.NoAction


/-! ## Data model

Records mirroring `app/infrastructure/database/models.py`.  Surrogate
auto-increment ids and presentation-only columns (`capital`, `zone_code`,
`town`, the active/inactive `status` column) carry no logic in the verified
claims and are elided; every column the core logic reads or writes is kept,
with SQL-nullable columns as `Option String`. -/

/-- `models.State` (a jurisdiction): code (primary key), name, contact
email, and the write-lock flag. -/
structure StateR where
  code : String
  name : String
  email : Option String
  is_locked : Bool
deriving DecidableEq

/-- `models.User` (a credential): email (unique), hashed password, role
string ("admin" / "hq" / "state"), optional state code, active flag. -/
structure Userr where
  email : String
  hashed_password : String
  role : String
  state_code : Option String
  is_active : Bool
deriving DecidableEq

/-- `models.LGA`. -/
structure LGAR where
  code : String
  name : String
  state_code : Option String
deriving DecidableEq

/-- `models.Custodian`. -/
structure CustodianR where
  code : String
  name : String
  state_code : Option String
  lga_code : Option String
deriving DecidableEq

/-- `models.School`: accreditation status is the string "Accredited" or
"Unaccredited"; `accredited_date` is a nullable ISO-format string column. -/
structure SchoolR where
  code : String
  name : String
  state_code : Option String
  lga_code : Option String
  custodian_code : Option String
  email : Option String
  accreditation_status : String
  accredited_date : Option String
deriving DecidableEq

/-- `models.BECESchool`: same shape as `models.School`, a distinct table. -/
structure BECESchoolR where
  code : String
  name : String
  state_code : Option String
  lga_code : Option String
  custodian_code : Option String
  email : Option String
  accreditation_status : String
  accredited_date : Option String
deriving DecidableEq

/-- Python truthiness of a nullable string column: `None` and `""` are falsy. -/
def truthy (o : Option String) : Bool :=
  match o with
  | none => false
  | some s => s ≠ ""

/-- SQL equality of two nullable values as produced by a SQLAlchemy
`filter(col == value)`: a comparison against NULL never matches. -/
def sqlEq (a b : Option String) : Bool :=
  match a, b with
  | some x, some y => x == y
  | _, _ => false

/-- The email recipients an alert should go to, when the owner is truthy:
`if school.email: recipients.append(school.email)` etc. -/
def optTruthy (o : Option String) : List String :=
  match o with
  | none => []
  | some e => if e = "" then [] else [e]

/-! ## ISO date parsing

`scheduler.py` line 25 parses the stored string with
`datetime.fromisoformat`.  The model parses the `YYYY-MM-DD` date part (four
digit year ≥ 1, valid month and day) and accepts an optional trailing
time-of-day introduced by `T` or a space (the form `datetime.now().isoformat()`
writes); the time digits themselves are external-library detail and are not
re-validated.  Everything else is rejected (`None`), modelling the
`ValueError` the except-block of the scheduler catches. -/

def digitVal (c : Char) : Nat := c.toNat - 48

def isDigit (c : Char) : Bool := 48 ≤ c.toNat && c.toNat ≤ 57

def parseIsoDate (s : String) : Option Date :=
  match s.toList with
  | y1 :: y2 :: y3 :: y4 :: '-' :: m1 :: m2 :: '-' :: d1 :: d2 :: rest =>
    if ([y1, y2, y3, y4, m1, m2, d1, d2].all isDigit)
        && (rest.isEmpty || rest.head? == some 'T' || rest.head? == some ' ') then
      let d : Date := ⟨1000 * digitVal y1 + 100 * digitVal y2 + 10 * digitVal y3 + digitVal y4,
                       10 * digitVal m1 + digitVal m2,
                       10 * digitVal d1 + digitVal d2⟩
      if validDate d then some d else none
    else none
  | _ => none


/-! ## LifecycleRunner: check_accreditation

`scheduler.py` lines 13-86.  The database session is a list of school rows
plus a list of state rows; alert e-mails and error logs are returned as
events.  All mutations are returned in the single final school list: the
session is committed exactly once, after the loop (`db.commit()` line 84). -/

/-- One alert e-mail issued by `send_accreditation_alert`. -/
structure Alert where
  recipients : List String
  school_name : String
  expiry : Date
  time_left : String
deriving DecidableEq

/-- Recipient list built at `scheduler.py` lines 39-42 / 74-77: the admin
address, the school's contact (if truthy), and the school's state's contact
(if the state row is found and its email truthy). -/
def schoolRecipients (adminEmail : String) (states : List StateR) (s : SchoolR) : List String :=
  [adminEmail] ++ optTruthy s.email ++
    (match states.find? (fun st => sqlEq (some st.code) s.state_code) with
     | some st => optTruthy st.email
     | none => [])

/-- The body of the `for school in schools` loop of `check_accreditation`
(lines 19-82) for one school: skip silently when `accredited_date` is falsy;
otherwise parse it — a parse failure is the caught-and-logged exception path —
and apply the classification: on `Expired` flip the status to "Unaccredited"
and emit an EXPIRED alert, on a threshold emit an alert with its label, else
do nothing.  Result: (updated row, alerts, error logs). -/
def processSchool (adminEmail : String) (states : List StateR) (today : Date) (s : SchoolR) :
    SchoolR × List Alert × List String :=
  if truthy s.accredited_date = false then (s, [], [])
  else
    match parseIsoDate (s.accredited_date.getD "") with
    | none => (s, [], ["Error processing school " ++ s.name])
    | some acc =>
      match classify today acc with
      | Outcome.Expired =>
          ({ s with accreditation_status := "Unaccredited" },
           [⟨schoolRecipients adminEmail states s, s.name, addYears5 acc, "EXPIRED"⟩], [])
      | Outcome.Threshold lbl =>
          (s, [⟨schoolRecipients adminEmail states s, s.name, addYears5 acc, lbl⟩], [])
      | Outcome.NoAction => (s, [], [])

/-- `check_accreditation` over the whole school table: the query at line 16
selects the rows with status "Accredited"; every other row is untouched.
Returns the post-commit school table together with all alerts and all error
logs of the pass. -/
def check_accreditation (adminEmail : String) (states : List StateR) (today : Date) :
    List SchoolR → List SchoolR × List Alert × List String
  | [] => ([], [], [])
  | s :: rest =>
    let r := check_accreditation adminEmail states today rest
    if s.accreditation_status = "Accredited" then
      let p := processSchool adminEmail states today s
      (p.1 :: r.1, p.2.1 ++ r.2.1, p.2.2 ++ r.2.2)
    else (s :: r.1, r.2.1, r.2.2)

/-- The effect of one lifecycle pass on a single row, stated independently of
the loop: an accredited row with a parseable date whose classification is
`Expired` becomes "Unaccredited"; every other row (unaccredited, missing
date, malformed date, or non-expired) is unchanged. -/
def lifecycleStep (today : Date) (s : SchoolR) : SchoolR :=
  if s.accreditation_status = "Accredited" ∧ truthy s.accredited_date = true then
    match parseIsoDate (s.accredited_date.getD "") with
    | some acc =>
        if classify today acc = Outcome.Expired then
          { s with accreditation_status := "Unaccredited" }
        else s
    | none => s
  else s

/-- A row is the caught-and-logged failure case of the pass: accredited, with
a truthy but unparseable `accredited_date`. -/
def malformedRow (s : SchoolR) : Bool :=
  s.accreditation_status == "Accredited" && truthy s.accredited_date &&
    (parseIsoDate (s.accredited_date.getD "")).isNone

/-! ## AccessPolicy: role gate, lock gate, scoped reads

`app/core/auth.py` lines 43-67 and the read endpoints of
`app/api/v1/endpoints/data.py`. -/

/-- `check_role(roles)` from `auth.py` lines 43-51: the dependency raises 403
unless the current user's role string is among the allowed roles.  `true`
means the request passes. -/
def check_role (roles : List String) (u : Userr) : Bool :=
  roles.contains u.role

/-- `check_state_not_locked` from `auth.py` lines 53-67: returns `true` when
the dependency raises the 403 "state locked" error, i.e. when the user has the
"state" role AND a truthy `state_code` AND the first state row with that code
exists and is locked.  Admin and HQ users, users without a truthy state code,
and users whose code matches no stored state pass through. -/
def check_state_not_locked (states : List StateR) (u : Userr) : Bool :=
  if u.role = "state" && truthy u.state_code then
    match states.find? (fun st => sqlEq (some st.code) u.state_code) with
    | some st => st.is_locked
    | none => false
  else false

/-- `get_states` (`data.py` lines 44-52): admin and HQ see every state row;
a state user sees only the rows whose code equals their own state code. -/
def get_states (u : Userr) (db : List StateR) : List StateR :=
  if u.role = "admin" || u.role = "hq" then db
  else db.filter (fun s => sqlEq (some s.code) u.state_code)

/-- `get_lgas` (`data.py` lines 242-253): a state user's query is filtered to
their own state code and the caller-supplied `state_code` parameter is
ignored; for other roles a truthy `state_code` parameter filters. -/
def get_lgas (state_code : Option String) (u : Userr) (db : List LGAR) : List LGAR :=
  if u.role = "state" then db.filter (fun l => sqlEq l.state_code u.state_code)
  else if truthy state_code then db.filter (fun l => sqlEq l.state_code state_code)
  else db

/-- `get_custodians` (`data.py` lines 318-334): the state-user constraint as
in `get_lgas`, then an optional `lga_code` filter. -/
def get_custodians (state_code lga_code : Option String) (u : Userr)
    (db : List CustodianR) : List CustodianR :=
  let q :=
    if u.role = "state" then db.filter (fun c => sqlEq c.state_code u.state_code)
    else if truthy state_code then db.filter (fun c => sqlEq c.state_code state_code)
    else db
  if truthy lga_code then q.filter (fun c => sqlEq c.lga_code lga_code) else q

/-- `get_schools` (`data.py` lines 399-420): the state-user constraint, then
optional `lga_code` and `custodian_code` filters. -/
def get_schools (state_code lga_code custodian_code : Option String) (u : Userr)
    (db : List SchoolR) : List SchoolR :=
  let q :=
    if u.role = "state" then db.filter (fun s => sqlEq s.state_code u.state_code)
    else if truthy state_code then db.filter (fun s => sqlEq s.state_code state_code)
    else db
  let q := if truthy lga_code then q.filter (fun s => sqlEq s.lga_code lga_code) else q
  if truthy custodian_code then q.filter (fun s => sqlEq s.custodian_code custodian_code) else q

/-- `get_bece_schools` (`data.py` lines 548-567): same query shape as
`get_schools` over the BECE table. -/
def get_bece_schools (state_code lga_code custodian_code : Option String) (u : Userr)
    (db : List BECESchoolR) : List BECESchoolR :=
  let q :=
    if u.role = "state" then db.filter (fun s => sqlEq s.state_code u.state_code)
    else if truthy state_code then db.filter (fun s => sqlEq s.state_code state_code)
    else db
  let q := if truthy lga_code then q.filter (fun s => sqlEq s.lga_code lga_code) else q
  if truthy custodian_code then q.filter (fun s => sqlEq s.custodian_code custodian_code) else q

/-- Result of a single-resource read endpoint. -/
inductive ReadResult (α : Type) where
  | ok : α → ReadResult α
  | notFound : ReadResult α
  | permissionDenied : ReadResult α
deriving DecidableEq

/-- `get_school` (`data.py` lines 422-436): 404 when no row has the code;
403 when a state user reads a school whose `state_code` differs from their
own (plain Python `!=` on the two nullable values); otherwise the row. -/
def get_school (code : String) (u : Userr) (db : List SchoolR) : ReadResult SchoolR :=
  match db.find? (fun s => s.code == code) with
  | none => ReadResult.notFound
  | some s =>
    if u.role = "state" && !(s.state_code == u.state_code) then ReadResult.permissionDenied
    else ReadResult.ok s

/-- `get_lga` (`data.py` lines 255-269), same RBAC shape as `get_school`. -/
def get_lga (code : String) (u : Userr) (db : List LGAR) : ReadResult LGAR :=
  match db.find? (fun l => l.code == code) with
  | none => ReadResult.notFound
  | some l =>
    if u.role = "state" && !(l.state_code == u.state_code) then ReadResult.permissionDenied
    else ReadResult.ok l

/-! ## Write-endpoint authorization

Each write endpoint of `data.py` composes the lock dependency
(`check_state_not_locked`, attached as a route dependency on the LGA,
custodian, school and BECE-school write routes) with a `check_role` gate, and
the update endpoints for (BECE) schools additionally deny a state user whose
target row lies outside their own state.  Both dependencies must pass for the
request to proceed; the model evaluates the lock first (the order only affects
which 403 reason is reported, not whether the request is allowed). -/

inductive WriteAuth where
  | allowed : WriteAuth
  | deniedLocked : WriteAuth
  | deniedRole : WriteAuth
  | deniedCross : WriteAuth
deriving DecidableEq

/-- The composed gate of a lock-guarded write route with allowed roles
`roles`. -/
def write_gate (roles : List String) (states : List StateR) (u : Userr) : WriteAuth :=
  if check_state_not_locked states u then WriteAuth.deniedLocked
  else if check_role roles u then WriteAuth.allowed
  else WriteAuth.deniedRole

/-- `create_lga` (`data.py` lines 271-281): lock-guarded, admin/hq only. -/
def create_lga_auth (states : List StateR) (u : Userr) : WriteAuth :=
  write_gate ["admin", "hq"] states u

/-- `delete_lga` (`data.py` lines 303-315): lock-guarded, admin/hq only. -/
def delete_lga_auth (states : List StateR) (u : Userr) : WriteAuth :=
  write_gate ["admin", "hq"] states u

/-- `create_school` (`data.py` lines 438-461): lock-guarded, admin/hq only. -/
def create_school_auth (states : List StateR) (u : Userr) : WriteAuth :=
  write_gate ["admin", "hq"] states u

/-- `delete_school` (`data.py` lines 505-517): lock-guarded, admin/hq only. -/
def delete_school_auth (states : List StateR) (u : Userr) : WriteAuth :=
  write_gate ["admin", "hq"] states u

/-- `create_custodian` (`data.py` lines 352-362): lock-guarded, admin/hq. -/
def create_custodian_auth (states : List StateR) (u : Userr) : WriteAuth :=
  write_gate ["admin", "hq"] states u

/-- `update_school` (`data.py` lines 463-476): lock-guarded, roles
admin/hq/state, and a state user may only touch a school in their own state
(line 475, plain Python `!=`). -/
def update_school_auth (states : List StateR) (u : Userr) (target : SchoolR) : WriteAuth :=
  match write_gate ["admin", "hq", "state"] states u with
  | WriteAuth.allowed =>
      if u.role = "state" && !(target.state_code == u.state_code) then WriteAuth.deniedCross
      else WriteAuth.allowed
  | d => d

/-- `update_bece_school` (`data.py` lines 608-620): same gate over the BECE
table. -/
def update_bece_school_auth (states : List StateR) (u : Userr) (target : BECESchoolR) : WriteAuth :=
  match write_gate ["admin", "hq", "state"] states u with
  | WriteAuth.allowed =>
      if u.role = "state" && !(target.state_code == u.state_code) then WriteAuth.deniedCross
      else WriteAuth.allowed
  | d => d

/-! ## IdentityProvisioner: _create_or_update_state_user

`data.py` lines 16-40.  `generate_password(8)` draws from an external secure
random source; the draw is passed in as the explicit `password` argument.
`get_password_hash` lives in `app/core/security.py`, which is not part of the
sources here. -/

/-- Modelled from the spec: `get_password_hash` (from the absent
`app/core/security.py`) — the credential stores only a hash of the generated
secret, never the plaintext; the hash itself is an opaque derived string. -/
def get_password_hash (p : String) : String := "$hash$" ++ p

/-- Replace the first element satisfying `p` by its image under `f` — the
SQLAlchemy `query(...).first()` row mutation. -/
def updateFirst (p : α → Bool) (f : α → α) : List α → List α
  | [] => []
  | x :: xs => if p x then f x :: xs else x :: updateFirst p f xs

/-- `_create_or_update_state_user(db, state_code, state_name, email)`:
if a user row with that email exists, set its `state_code` to the supplied
value and return no password (and send no e-mail); otherwise create an
active "state"-role user with the hashed fresh password, send the
credentials e-mail, and return the password.  Result:
(returned password, user table afterwards, credential e-mails sent). -/
def create_or_update_state_user (db : List Userr)
    (state_code state_name email password : String) :
    Option String × List Userr × List String :=
  if (db.find? (fun u => u.email == email)).isSome then
    (none,
     updateFirst (fun u => u.email == email)
       (fun u => { u with state_code := some state_code }) db,
     [])
  else
    (some password,
     db ++ [⟨email, get_password_hash password, "state", some state_code, true⟩],
     [state_name ++ ":" ++ email])

/-! ## Theorems -/

example : classify ⟨2025, 1, 10⟩ ⟨2020, 1, 10⟩ = Outcome.Expired := by decide
example : classify ⟨2024, 1, 11⟩ ⟨2020, 1, 10⟩ = Outcome.Threshold "1 Year" := by decide
example : classify ⟨2024, 1, 12⟩ ⟨2020, 1, 10⟩ = Outcome.NoAction := by decide
example : classify ⟨2024, 7, 12⟩ ⟨2020, 1, 10⟩ = Outcome.Threshold "6 Months" := by decide
example : classify ⟨2024, 12, 11⟩ ⟨2020, 1, 10⟩ = Outcome.Threshold "1 Month" := by decide
example : toDays ⟨2020, 3, 1⟩ - toDays ⟨2020, 2, 29⟩ = 1 := by decide
example : parseIsoDate "2020-01-10" = some ⟨2020, 1, 10⟩ := by decide
example : parseIsoDate "2020-01-10T12:30:00" = some ⟨2020, 1, 10⟩ := by decide
example : parseIsoDate "not-a-date" = none := by decide
example : parseIsoDate "2021-02-29" = none := by decide
example : parseIsoDate "" = none := by decide

/-- C1: for every accreditation date D and every today value T,
`classify T D` is `Expired` if and only if `T >= D + 5 years`; with
accreditedOn = 2020-01-10 and today = 2025-01-10 the outcome is `Expired`;
and on `Expired` the lifecycle pass sets the school's status to
"Unaccredited". -/
theorem c1_expiry_classification :
    (∀ T D : Date, classify T D = Outcome.Expired ↔ dateLe (addYears5 D) T = true)
    ∧ classify ⟨2025, 1, 10⟩ ⟨2020, 1, 10⟩ = Outcome.Expired
    ∧ (∀ (ae : String) (sts : List StateR) (td : Date) (s : SchoolR) (acc : Date),
        truthy s.accredited_date = true →
        parseIsoDate (s.accredited_date.getD "") = some acc →
        classify td acc = Outcome.Expired →
        (processSchool ae sts td s).1.accreditation_status = "Unaccredited") := by
  refine ⟨?_, by decide, ?_⟩
  · intro T D
    unfold classify
    by_cases h : dateLe (addYears5 D) T = true
    · simp [h]
    · rw [Bool.not_eq_true] at h
      simp only [h, Bool.false_eq_true, if_false]
      by_cases h1 : toDays (addYears5 D) - toDays T = 365 <;>
        by_cases h2 : toDays (addYears5 D) - toDays T = 182 <;>
        by_cases h3 : toDays (addYears5 D) - toDays T = 91 <;>
        by_cases h4 : toDays (addYears5 D) - toDays T = 61 <;>
        by_cases h5 : toDays (addYears5 D) - toDays T = 30 <;>
        simp_all
  · intro ae sts td s acc h1 h2 h3
    unfold processSchool
    simp [h1, h2, h3]

/-- Witness for C1 at the spec's concrete example: a school accredited on
2020-01-10 is flipped to "Unaccredited" by the pass run on 2025-01-10. -/
theorem c1_expiry_classification_witness :
    (processSchool "admin@neco.gov.ng" [] ⟨2025, 1, 10⟩
      ⟨"SCH1", "Sample School", none, none, none, none, "Accredited",
       some "2020-01-10"⟩).1.accreditation_status = "Unaccredited" :=
  c1_expiry_classification.2.2 "admin@neco.gov.ng" [] ⟨2025, 1, 10⟩
    ⟨"SCH1", "Sample School", none, none, none, none, "Accredited", some "2020-01-10"⟩
    ⟨2020, 1, 10⟩ (by decide) (by decide) (by decide)

/-- C2: for T strictly before expiry, `classify T D` is `Threshold` exactly
when the number of days from T to the expiry date is 365, 182, 91, 61 or 30,
with labels "1 Year", "6 Months", "3 Months", "2 Months", "1 Month"
respectively, and `NoAction` for every other such T; and with
accreditedOn = 2020-01-10, today = 2024-01-11 yields `Threshold "1 Year"`. -/
theorem c2_threshold_classification :
    (∀ T D : Date, dateLe (addYears5 D) T = false →
      ((classify T D = Outcome.Threshold "1 Year" ↔ toDays (addYears5 D) - toDays T = 365) ∧
       (classify T D = Outcome.Threshold "6 Months" ↔ toDays (addYears5 D) - toDays T = 182) ∧
       (classify T D = Outcome.Threshold "3 Months" ↔ toDays (addYears5 D) - toDays T = 91) ∧
       (classify T D = Outcome.Threshold "2 Months" ↔ toDays (addYears5 D) - toDays T = 61) ∧
       (classify T D = Outcome.Threshold "1 Month" ↔ toDays (addYears5 D) - toDays T = 30) ∧
       (classify T D = Outcome.NoAction ↔
         toDays (addYears5 D) - toDays T ∉ ([365, 182, 91, 61, 30] : List Int))))
    ∧ classify ⟨2024, 1, 11⟩ ⟨2020, 1, 10⟩ = Outcome.Threshold "1 Year" := by
  refine ⟨?_, by decide⟩
  intro T D h
  unfold classify
  simp only [h, Bool.false_eq_true, if_false]
  by_cases h1 : toDays (addYears5 D) - toDays T = 365 <;>
    by_cases h2 : toDays (addYears5 D) - toDays T = 182 <;>
    by_cases h3 : toDays (addYears5 D) - toDays T = 91 <;>
    by_cases h4 : toDays (addYears5 D) - toDays T = 61 <;>
    by_cases h5 : toDays (addYears5 D) - toDays T = 30 <;>
    simp_all

/-- Witness for C2 at the spec's concrete example: 2024-01-11 is 365 days
before the expiry of an accreditation dated 2020-01-10, and classifies as
`Threshold "1 Year"`. -/
theorem c2_threshold_classification_witness :
    classify ⟨2024, 1, 11⟩ ⟨2020, 1, 10⟩ = Outcome.Threshold "1 Year" ∧
    toDays (addYears5 ⟨2020, 1, 10⟩) - toDays ⟨2024, 1, 11⟩ = 365 :=
  ⟨(c2_threshold_classification.1 ⟨2024, 1, 11⟩ ⟨2020, 1, 10⟩ (by decide)).1.mpr
    (by decide), by decide⟩

/-- SQL equality only holds between equal non-null values. -/
theorem sqlEq_eq {a b : Option String} (h : sqlEq a b = true) : a = b := by
  cases a <;> cases b <;> simp_all [sqlEq]

/-- C4: a "state"-role user whose own (locked) state row is found by the lock
gate is denied the write; the same user's collection read still succeeds,
filtered to rows of their own state; and admin / hq users are never blocked by
the lock, whatever the state table holds. -/
theorem c4_lock_blocks_write_not_read (u : Userr) (sts : List StateR) (st : StateR)
    (hrole : u.role = "state")
    (htr : truthy u.state_code = true)
    (hfind : sts.find? (fun s => sqlEq (some s.code) u.state_code) = some st)
    (hlock : st.is_locked = true) :
    check_state_not_locked sts u = true ∧
    (∀ row ∈ get_states u sts, some row.code = u.state_code) ∧
    (∀ (v : Userr) (sts' : List StateR), v.role = "admin" ∨ v.role = "hq" →
      check_state_not_locked sts' v = false) := by
  refine ⟨?_, ?_, ?_⟩
  · simp [check_state_not_locked, hrole, htr, hfind, hlock]
  · intro row hrow
    have hne : ¬(u.role = "admin" ∨ u.role = "hq") := by simp [hrole]
    simp only [get_states] at hrow
    rw [if_neg (by simpa using hne)] at hrow
    exact sqlEq_eq (List.mem_filter.mp hrow).2
  · intro v sts' hv
    rcases hv with h | h <;> simp [check_state_not_locked, h]

/-- Witness for C4: a locked state's user is write-blocked. -/
theorem c4_lock_blocks_write_not_read_witness :
    check_state_not_locked [⟨"KN", "Kano", none, true⟩]
      ⟨"kn@neco.gov.ng", "h", "state", some "KN", true⟩ = true :=
  (c4_lock_blocks_write_not_read ⟨"kn@neco.gov.ng", "h", "state", some "KN", true⟩
    [⟨"KN", "Kano", none, true⟩] ⟨"KN", "Kano", none, true⟩
    (by decide) (by decide) (by decide) (by decide)).1

/-- C8 counterexample: the claim "the lock gate raises if and only if the
caller's role is the state role, the caller has a non-null state code, a
state row with that code exists, and that row's lock flag is true" fails at
state code `""`: the right-hand side holds, yet the gate does not raise,
because the code's truthiness test treats the empty string like null. -/
theorem c8_lock_gate_counterexample :
    (let u : Userr := ⟨"ghost@x.ng", "h", "state", some "", true⟩
     let sts : List StateR := [⟨"", "Ghost", none, true⟩]
     (u.role = "state" ∧ u.state_code ≠ none ∧
       ∃ st ∈ sts, some st.code = u.state_code ∧ st.is_locked = true) ∧
     check_state_not_locked sts u = false) := by decide

/-- C8 (amended): over a state table with no duplicate codes, the lock gate
raises if and only if the caller's role is "state", the caller's state code is
non-null AND non-empty, a state row with that code is stored, and that row's
lock flag is true; in particular a caller whose code is null, empty, or
matches no stored state is never blocked. -/
theorem c8_lock_gate_iff (u : Userr) (sts : List StateR)
    (hnd : (sts.map (fun s => s.code)).Nodup) :
    check_state_not_locked sts u = true ↔
      (u.role = "state" ∧ ∃ j, u.state_code = some j ∧ j ≠ "" ∧
        ∃ st ∈ sts, st.code = j ∧ st.is_locked = true) := by
  by_cases hrole : u.role = "state"
  · cases hsc : u.state_code with
    | none => simp [check_state_not_locked, truthy, hrole, hsc]
    | some j =>
      by_cases hj : j = ""
      · simp [check_state_not_locked, truthy, hrole, hsc, hj]
      · have htr : truthy u.state_code = true := by simp [truthy, hsc, hj]
        cases hf : sts.find? (fun st => sqlEq (some st.code) u.state_code) with
        | none =>
          have hnone : ∀ st ∈ sts, ¬(st.code = j ∧ st.is_locked = true) := by
            intro st hst hcl
            have := List.find?_eq_none.mp hf st hst
            simp [sqlEq, hsc, hcl.1] at this
          rw [show check_state_not_locked sts u = false from by
            simp [check_state_not_locked, hrole, htr, hf]]
          simp only [Bool.false_eq_true, false_iff]
          rintro ⟨-, j', hj', -, st, hst, hcode, hlocked⟩
          obtain rfl := Option.some.inj hj'
          exact hnone st hst ⟨hcode, hlocked⟩
        | some st =>
          have hmem : st ∈ sts := List.mem_of_find?_eq_some hf
          have hp := List.find?_some hf
          simp only [hsc] at hp
          have hcode : st.code = j := Option.some.inj (sqlEq_eq hp)
          rw [show check_state_not_locked sts u = st.is_locked from by
            simp [check_state_not_locked, hrole, htr, hf]]
          constructor
          · intro hl
            exact ⟨hrole, j, rfl, hj, st, hmem, hcode, hl⟩
          · rintro ⟨-, j', hj', -, st', hst', hcode', hlocked'⟩
            obtain rfl := Option.some.inj hj'
            have heq : st = st' :=
              List.inj_on_of_nodup_map hnd hmem hst' (by rw [hcode, hcode'])
            rw [heq]
            exact hlocked'
  · simp [check_state_not_locked, hrole]

/-- Witness for C8 (amended): a locked stored state with a matching non-empty
caller code does make the gate raise. -/
theorem c8_lock_gate_iff_witness :
    check_state_not_locked [⟨"KN", "Kano", none, true⟩]
      ⟨"kn@neco.gov.ng", "h", "state", some "KN", true⟩ = true :=
  (c8_lock_gate_iff ⟨"kn@neco.gov.ng", "h", "state", some "KN", true⟩
    [⟨"KN", "Kano", none, true⟩] (by decide)).mpr
    ⟨rfl, "KN", rfl, by decide, ⟨"KN", "Kano", none, true⟩, by decide, rfl, rfl⟩

/-- C5: every collection read by a "state"-role user — states, LGAs,
custodians, schools, BECE schools, under any caller-supplied filter
parameters — returns only rows whose state code equals the user's own, and a
single-resource read of a school in another state is denied. -/
theorem c5_scoped_reads_own_rows_only (u : Userr) (h : u.role = "state") :
    (∀ db : List StateR, ∀ st ∈ get_states u db, some st.code = u.state_code) ∧
    (∀ (p : Option String) (db : List LGAR), ∀ l ∈ get_lgas p u db,
      l.state_code = u.state_code) ∧
    (∀ (p q : Option String) (db : List CustodianR), ∀ c ∈ get_custodians p q u db,
      c.state_code = u.state_code) ∧
    (∀ (p q r : Option String) (db : List SchoolR), ∀ s ∈ get_schools p q r u db,
      s.state_code = u.state_code) ∧
    (∀ (p q r : Option String) (db : List BECESchoolR), ∀ b ∈ get_bece_schools p q r u db,
      b.state_code = u.state_code) ∧
    (∀ (code : String) (db : List SchoolR) (s : SchoolR),
      db.find? (fun x => x.code == code) = some s → s.state_code ≠ u.state_code →
      get_school code u db = ReadResult.permissionDenied) := by
  have hne : ¬(u.role = "admin" ∨ u.role = "hq") := by simp [h]
  refine ⟨?_, ?_, ?_, ?_, ?_, ?_⟩
  · intro db st hst
    simp only [get_states] at hst
    rw [if_neg (by simpa using hne)] at hst
    exact sqlEq_eq (List.mem_filter.mp hst).2
  · intro p db l hl
    simp [get_lgas, h] at hl
    exact sqlEq_eq hl.2
  · intro p q db c hc
    by_cases ht : truthy q <;> simp [get_custodians, h, ht] at hc <;>
      exact sqlEq_eq (by tauto)
  · intro p q r db s hs
    by_cases ht : truthy q <;> by_cases ht2 : truthy r <;>
      simp [get_schools, h, ht, ht2] at hs <;> exact sqlEq_eq (by tauto)
  · intro p q r db b hb
    by_cases ht : truthy q <;> by_cases ht2 : truthy r <;>
      simp [get_bece_schools, h, ht, ht2] at hb <;> exact sqlEq_eq (by tauto)
  · intro code db s hf hne'
    simp [get_school, hf, h, hne']

/-- Witness for C5: a Kano-scoped user reading the school table sees a Kano
school's row only because its state code is Kano's. -/
theorem c5_scoped_reads_own_rows_only_witness :
    (⟨"S1", "Alpha", some "KN", none, none, none, "Accredited", none⟩ : SchoolR).state_code =
      (⟨"kn@neco.gov.ng", "h", "state", some "KN", true⟩ : Userr).state_code :=
  (c5_scoped_reads_own_rows_only ⟨"kn@neco.gov.ng", "h", "state", some "KN", true⟩
      rfl).2.2.2.1 (some "LA") none none
    [⟨"S1", "Alpha", some "KN", none, none, none, "Accredited", none⟩,
     ⟨"S2", "Beta", some "LA", none, none, none, "Accredited", none⟩]
    ⟨"S1", "Alpha", some "KN", none, none, none, "Accredited", none⟩ (by decide)

/-- C9: for a "state"-role user, every collection read is independent of the
caller-supplied `state_code` query parameter: two calls differing only in
that parameter return the same rows, so a scoped caller cannot widen its view
by naming another state's code. -/
theorem c9_state_code_param_ignored (u : Userr) (h : u.role = "state") :
    (∀ (p₁ p₂ : Option String) (db : List LGAR), get_lgas p₁ u db = get_lgas p₂ u db) ∧
    (∀ (p₁ p₂ q : Option String) (db : List CustodianR),
      get_custodians p₁ q u db = get_custodians p₂ q u db) ∧
    (∀ (p₁ p₂ q r : Option String) (db : List SchoolR),
      get_schools p₁ q r u db = get_schools p₂ q r u db) ∧
    (∀ (p₁ p₂ q r : Option String) (db : List BECESchoolR),
      get_bece_schools p₁ q r u db = get_bece_schools p₂ q r u db) := by
  refine ⟨?_, ?_, ?_, ?_⟩ <;> intros <;>
    simp [get_lgas, get_custodians, get_schools, get_bece_schools, h]

/-- Witness for C9: supplying another state's code changes nothing for a
scoped user. -/
theorem c9_state_code_param_ignored_witness :
    get_lgas (some "LA") ⟨"kn@neco.gov.ng", "h", "state", some "KN", true⟩
      [⟨"L1", "Dala", some "KN"⟩, ⟨"L2", "Ikeja", some "LA"⟩] =
    get_lgas none ⟨"kn@neco.gov.ng", "h", "state", some "KN", true⟩
      [⟨"L1", "Dala", some "KN"⟩, ⟨"L2", "Ikeja", some "LA"⟩] :=
  (c9_state_code_param_ignored ⟨"kn@neco.gov.ng", "h", "state", some "KN", true⟩ rfl).1
    (some "LA") none [⟨"L1", "Dala", some "KN"⟩, ⟨"L2", "Ikeja", some "LA"⟩]

/-- C6 counterexample: a "state"-role user in their own unlocked state is NOT
allowed every kind of write — creating an LGA is refused for insufficient
role, although the lock gate itself passes.  This falsifies "for every write
operation (create, update, or delete) ... authorize returns Allow". -/
theorem c6_uniform_write_allow_counterexample :
    (let u : Userr := ⟨"kn@neco.gov.ng", "h", "state", some "KN", true⟩
     let sts : List StateR := [⟨"KN", "Kano", none, false⟩]
     check_state_not_locked sts u = false ∧
       create_lga_auth sts u ≠ WriteAuth.allowed) := by decide

/-- C6 (amended): while their state's lock flag is false, a "state"-role
user's update of a school or BECE school in their own state is allowed; but
create and delete operations are reserved to admin / hq, so the same user's
creates and deletes are denied for insufficient role — the lock gate, not the
role gate, is what is applied uniformly across the LGA, custodian, school and
BECE-school write routes. -/
theorem c6_write_gating (u : Userr) (sts : List StateR) (st : StateR)
    (s : SchoolR) (b : BECESchoolR)
    (hrole : u.role = "state")
    (hfind : sts.find? (fun x => sqlEq (some x.code) u.state_code) = some st)
    (hunlocked : st.is_locked = false)
    (hown : s.state_code = u.state_code) (hbown : b.state_code = u.state_code) :
    update_school_auth sts u s = WriteAuth.allowed ∧
    update_bece_school_auth sts u b = WriteAuth.allowed ∧
    create_lga_auth sts u = WriteAuth.deniedRole ∧
    delete_lga_auth sts u = WriteAuth.deniedRole ∧
    create_school_auth sts u = WriteAuth.deniedRole ∧
    delete_school_auth sts u = WriteAuth.deniedRole ∧
    create_custodian_auth sts u = WriteAuth.deniedRole := by
  have hgate : check_state_not_locked sts u = false := by
    by_cases htr : truthy u.state_code <;>
      simp [check_state_not_locked, hrole, htr, hfind, hunlocked]
  refine ⟨?_, ?_, ?_, ?_, ?_, ?_, ?_⟩ <;>
    simp [update_school_auth, update_bece_school_auth, create_lga_auth, delete_lga_auth,
      create_school_auth, delete_school_auth, create_custodian_auth, write_gate,
      check_role, hgate, hrole, hown, hbown]

/-- Witness for C6 (amended): concrete unlocked own-state update allowed,
create denied. -/
theorem c6_write_gating_witness :
    update_school_auth [⟨"KN", "Kano", none, false⟩]
      ⟨"kn@neco.gov.ng", "h", "state", some "KN", true⟩
      ⟨"S1", "Alpha", some "KN", none, none, none, "Accredited", none⟩ =
      WriteAuth.allowed :=
  (c6_write_gating ⟨"kn@neco.gov.ng", "h", "state", some "KN", true⟩
    [⟨"KN", "Kano", none, false⟩] ⟨"KN", "Kano", none, false⟩
    ⟨"S1", "Alpha", some "KN", none, none, none, "Accredited", none⟩
    ⟨"B1", "Gamma", some "KN", none, none, none, "Accredited", none⟩
    (by decide) (by decide) (by decide) (by decide) (by decide)).1

/-- `updateFirst` skips a prefix containing no match. -/
theorem updateFirst_append_of_none {α} (p : α → Bool) (f : α → α) (l₁ l₂ : List α)
    (h : ∀ x ∈ l₁, ¬ p x) :
    updateFirst p f (l₁ ++ l₂) = l₁ ++ updateFirst p f l₂ := by
  induction l₁ with
  | nil => rfl
  | cons x xs ih =>
    simp only [List.cons_append, updateFirst]
    rw [if_neg (by simpa using h x (by simp))]
    exact congrArg (fun t => x :: t) (ih (fun y hy => h y (by simp [hy])))

/-- Every element of `updateFirst p f l` is the original element or its image
under `f`, positionally. -/
theorem updateFirst_forall₂ {α} (p : α → Bool) (f : α → α) (l : List α) :
    List.Forall₂ (fun a b => b = a ∨ b = f a) l (updateFirst p f l) := by
  induction l with
  | nil => exact List.Forall₂.nil
  | cons x xs ih =>
    simp only [updateFirst]
    by_cases hp : p x
    · rw [if_pos hp]
      exact List.Forall₂.cons (Or.inr rfl) (List.forall₂_same.mpr fun y _ => Or.inl rfl)
    · rw [if_neg hp]
      exact List.Forall₂.cons (Or.inl rfl) ih

/-- C3: provisioning the same previously-unseen email twice creates the
credential with the generated secret on the first call, updates on the second
call with no new secret and no credentials e-mail, points the credential at
the second call's state code, and leaves exactly one credential for that
email. -/
theorem c3_provision_twice_idempotent (db : List Userr) (e : String)
    (h : ∀ u ∈ db, u.email ≠ e)
    (sc₁ n₁ pw₁ sc₂ n₂ pw₂ : String) :
    (create_or_update_state_user db sc₁ n₁ e pw₁).1 = some pw₁ ∧
    ((create_or_update_state_user
        (create_or_update_state_user db sc₁ n₁ e pw₁).2.1 sc₂ n₂ e pw₂).1 = none ∧
     (create_or_update_state_user
        (create_or_update_state_user db sc₁ n₁ e pw₁).2.1 sc₂ n₂ e pw₂).2.2 = [] ∧
     ((create_or_update_state_user
        (create_or_update_state_user db sc₁ n₁ e pw₁).2.1 sc₂ n₂ e pw₂).2.1.filter
          (fun u => u.email == e)).length = 1 ∧
     (∀ u ∈ (create_or_update_state_user
        (create_or_update_state_user db sc₁ n₁ e pw₁).2.1 sc₂ n₂ e pw₂).2.1,
        u.email = e → u.state_code = some sc₂)) := by
  have hfind₁ : db.find? (fun u => u.email == e) = none :=
    List.find?_eq_none.mpr (fun x hx => by simpa using h x hx)
  have h₁ : create_or_update_state_user db sc₁ n₁ e pw₁ =
      (some pw₁, db ++ [⟨e, get_password_hash pw₁, "state", some sc₁, true⟩],
       [n₁ ++ ":" ++ e]) := by
    simp [create_or_update_state_user, hfind₁]
  rw [h₁]
  have hfind₂ : (db ++ [(⟨e, get_password_hash pw₁, "state", some sc₁, true⟩ : Userr)]).find?
      (fun u => u.email == e) = some ⟨e, get_password_hash pw₁, "state", some sc₁, true⟩ := by
    rw [List.find?_append, hfind₁]
    simp
  have h₂ : create_or_update_state_user
      (db ++ [(⟨e, get_password_hash pw₁, "state", some sc₁, true⟩ : Userr)]) sc₂ n₂ e pw₂ =
      (none, db ++ [⟨e, get_password_hash pw₁, "state", some sc₂, true⟩], []) := by
    simp only [create_or_update_state_user, hfind₂, Option.isSome_some, if_true]
    rw [updateFirst_append_of_none _ _ _ _ (fun x hx => by simpa using h x hx)]
    simp [updateFirst]
  rw [h₂]
  refine ⟨rfl, rfl, rfl, ?_, ?_⟩
  · rw [List.filter_append]
    rw [List.filter_eq_nil_iff.mpr (fun x hx => by simpa using h x hx)]
    simp
  · intro u hu hue
    rcases List.mem_append.mp hu with hu | hu
    · exact absurd hue (h u hu)
    · rcases List.mem_singleton.mp hu with rfl
      rfl

/-- Witness for C3 on an initially empty credential table. -/
theorem c3_provision_twice_idempotent_witness :
    (create_or_update_state_user [] "KN" "Kano" "kn@neco.gov.ng" "pw123").1 =
      some "pw123" :=
  (c3_provision_twice_idempotent [] "kn@neco.gov.ng" (by intro u hu; cases hu)
    "KN" "Kano" "pw123" "LA" "Lagos" "pw456").1

/-- C10: provisioning an email that already has a credential modifies at most
that credential's state code (to the supplied value): every user row keeps
its email, hashed password, role and active flag, no password is returned,
and no credentials e-mail is sent. -/
theorem c10_update_path_frame (db : List Userr) (sc n e pw : String)
    (h : (db.find? (fun u => u.email == e)).isSome = true) :
    (create_or_update_state_user db sc n e pw).1 = none ∧
    (create_or_update_state_user db sc n e pw).2.2 = [] ∧
    List.Forall₂ (fun old new => new.email = old.email ∧
        new.hashed_password = old.hashed_password ∧ new.role = old.role ∧
        new.is_active = old.is_active ∧
        (new.state_code = old.state_code ∨ new.state_code = some sc))
      db (create_or_update_state_user db sc n e pw).2.1 := by
  have hd : create_or_update_state_user db sc n e pw =
      (none, updateFirst (fun u => u.email == e)
        (fun u => { u with state_code := some sc }) db, []) := by
    simp [create_or_update_state_user, h]
  rw [hd]
  refine ⟨rfl, rfl, ?_⟩
  refine (updateFirst_forall₂ (fun u => u.email == e)
    (fun u => { u with state_code := some sc }) db).imp ?_
  rintro a b (rfl | rfl)
  · exact ⟨rfl, rfl, rfl, rfl, Or.inl rfl⟩
  · exact ⟨rfl, rfl, rfl, rfl, Or.inr rfl⟩

/-- Witness for C10: updating an existing credential's state returns no
password and preserves the other fields. -/
theorem c10_update_path_frame_witness :
    (create_or_update_state_user [⟨"kn@neco.gov.ng", "hp", "state", some "KN", true⟩]
      "LA" "Lagos" "kn@neco.gov.ng" "pw999").1 = none :=
  (c10_update_path_frame [⟨"kn@neco.gov.ng", "hp", "state", some "KN", true⟩]
    "LA" "Lagos" "kn@neco.gov.ng" "pw999" (by decide)).1

/-- The school returned by the loop body is exactly `lifecycleStep` of the
input school, for an accredited input. -/
theorem processSchool_fst (ae : String) (sts : List StateR) (today : Date) (s : SchoolR)
    (hacc : s.accreditation_status = "Accredited") :
    (processSchool ae sts today s).1 = lifecycleStep today s := by
  unfold processSchool lifecycleStep
  by_cases htr : truthy s.accredited_date
  · cases hp : parseIsoDate (s.accredited_date.getD "") with
    | none => simp [hacc, htr, hp]
    | some acc => cases hc : classify today acc <;> simp [hacc, htr, hp, hc]
  · simp [hacc, htr]

/-- The loop body logs exactly one error for a malformed accredited row and
none otherwise. -/
theorem processSchool_errors (ae : String) (sts : List StateR) (today : Date) (s : SchoolR)
    (hacc : s.accreditation_status = "Accredited") :
    (processSchool ae sts today s).2.2.length = (if malformedRow s = true then 1 else 0) := by
  unfold processSchool malformedRow
  by_cases htr : truthy s.accredited_date
  · cases hp : parseIsoDate (s.accredited_date.getD "") with
    | none => simp [hacc, htr, hp]
    | some acc => cases hc : classify today acc <;> simp [hacc, htr, hp, hc]
  · simp [hacc, htr]

/-- C7: one lifecycle pass over any school table completes with a result for
every row: the final table is the row-wise `lifecycleStep` image (each
malformed or non-accredited row unchanged, each well-formed accredited row
given its classified transition, independent of every other row), and the
number of logged errors equals the number of malformed accredited rows.  The
whole table is returned — committed — once, at the end of the pass. -/
theorem c7_pass_survives_malformed_rows (ae : String) (sts : List StateR) (today : Date)
    (schools : List SchoolR) :
    (check_accreditation ae sts today schools).1 = schools.map (lifecycleStep today) ∧
    (check_accreditation ae sts today schools).2.2.length =
      (schools.filter malformedRow).length := by
  induction schools with
  | nil => exact ⟨rfl, rfl⟩
  | cons s rest ih =>
    obtain ⟨ih1, ih2⟩ := ih
    by_cases hacc : s.accreditation_status = "Accredited"
    · refine ⟨?_, ?_⟩
      · simp only [check_accreditation, List.map_cons]
        rw [if_pos hacc]
        exact congrArg₂ (· :: ·) (processSchool_fst ae sts today s hacc) ih1
      · simp only [check_accreditation]
        rw [if_pos hacc]
        simp only [List.filter_cons, List.length_append]
        by_cases hm : malformedRow s
        · rw [if_pos hm]
          simp [processSchool_errors ae sts today s hacc, hm, ih2, Nat.add_comm]
        · rw [if_neg hm]
          simp only [Bool.not_eq_true] at hm
          simp [processSchool_errors ae sts today s hacc, hm, ih2]
    · have hns : malformedRow s = false := by
        simp [malformedRow, hacc]
      refine ⟨?_, ?_⟩
      · simp only [check_accreditation, List.map_cons]
        rw [if_neg hacc]
        have hstep : lifecycleStep today s = s := by simp [lifecycleStep, hacc]
        simp [hstep, ih1]
      · simp only [check_accreditation]
        rw [if_neg hacc]
        simp [List.filter_cons, hns, ih2]

end Neco
